import Mathlib

/-!
Shallow embedding of the three example scripts of the mcp-use repository:
src/examples/airbnb_use.py, src/examples/browser_use.py and
src/examples/mcp_everything.py.

Each script is a straight-line async procedure whose only actions are calls
into external collaborators (dotenv loading, the MCPClient/MCPAgent library,
the ChatOllama LLM binding, and printing).  We embed a script run as a
function from an environment - the process working directory, the module's
file path, the outcome chosen by the external agent.run call, and the
client's sessions collection at teardown time - to the trace of external
calls the script performs together with the script's final outcome (normal
return or a propagated exception).  Python's try/finally is embedded by an
explicit combinator appending the cleanup trace to the body trace while
preserving the body's outcome, which is Python's semantics when the finally
block itself does not raise.  The float literal temperature=-0.1 is embedded
as the rational number -1/10 (no arithmetic is ever performed on it; it is
only passed through).
-/

namespace McpUse

/-- posixpath helper: one past the index of the last slash of the character
list, 0 when there is no slash (models `p.rfind(sep) + 1` in posixpath.dirname). -/
def lastSepIdxSucc : List Char → Nat
  | [] => 0
  | c :: rest =>
    let r := lastSepIdxSucc rest
    if r > 0 then r + 1 else if c = '/' then 1 else 0

/-- posixpath helper: is every character a slash (models `head == sep*len(head)`). -/
def allSep (cs : List Char) : Bool := cs.all (fun c => c = '/')

/-- posixpath helper: strip trailing slashes (models `head.rstrip(sep)`). -/
def rstripSep (cs : List Char) : List Char :=
  ((cs.reverse).dropWhile (fun c => c = '/')).reverse

/-- Embedding of Python's `os.path.dirname` for POSIX paths: take everything
up to and including the last slash, then strip trailing slashes unless the
prefix consists only of slashes (or is empty). -/
def os_path_dirname (p : String) : String :=
  let cs := p.data
  let head := cs.take (lastSepIdxSucc cs)
  String.mk (if allSep head then head else rstripSep head)

/-- Does the string start with a slash (models `b.startswith(sep)`). -/
def startsWithSep (s : String) : Bool :=
  match s.data with
  | [] => false
  | c :: _ => c = '/'

/-- Does the string end with a slash (models `path.endswith(sep)`). -/
def endsWithSep (s : String) : Bool :=
  match s.data.getLast? with
  | some c => c = '/'
  | none => false

/-- Embedding of Python's `os.path.join` for POSIX paths and two arguments:
an absolute second component replaces the first; otherwise the components
are joined with a slash unless the first is empty or already ends in one. -/
def os_path_join (a b : String) : String :=
  if startsWithSep b then b
  else if a == "" || endsWithSep a then a ++ b
  else a ++ "/" ++ b

/-- One named MCP server launch spec: a command and its argument list
(the value part of one entry of the "mcpServers" mapping). -/
structure ServerSpec where
  command : String
  args : List String
deriving DecidableEq

/-- The JSON-shaped configuration mapping passed to MCPClient: named server
launch specs under the "mcpServers" key. -/
structure MCPConfig where
  mcpServers : List (String × ServerSpec)
deriving DecidableEq

/-- The outcome of the awaited external `agent.run` call: a textual result,
or a raised exception (identified by a string). -/
inductive AgentOutcome where
  | ok (result : String)
  | err (exn : String)
deriving DecidableEq

/-- The final outcome of one script run: normal completion, or an exception
propagating out of the async entry point. -/
inductive Outcome where
  | normal
  | raised (exn : String)
deriving DecidableEq

/-- One observable external action performed by a script: each constructor
records one call site into a collaborator together with the exact argument
values handed over. -/
inductive Event where
  | load_dotenv
  | from_config_file (path : String)
  | mk_client_inline (config : MCPConfig)
  | mk_llm (model : String) (base_url : String) (temperature : ℚ)
  | mk_agent (max_steps : Nat) (verbose : Option Bool)
  | agent_run (task : String) (max_steps : Nat)
  | print_line (text : String)
  | check_sessions (nonempty : Bool)
  | close_all_sessions
deriving DecidableEq

/-- Is the event a print to standard output. -/
def isPrintEvent : Event → Bool
  | Event.print_line _ => true
  | _ => false

/-- try/finally semantics: the cleanup trace runs after the body trace and
the body's outcome (normal or raised) is preserved unchanged, which is
Python's behaviour when the finally block itself does not raise. -/
def tryFinallyRun (body : List Event × Outcome) (cleanup : List Event) :
    List Event × Outcome :=
  (body.1 ++ cleanup, body.2)

/-- Environment of one run of airbnb_use.py: working directory, the module's
__file__, the outcome of agent.run, and client.sessions at teardown time. -/
structure AirbnbEnv where
  cwd : String
  file : String
  agentOutcome : AgentOutcome
  sessions : List String
deriving DecidableEq

/-- Environment of one run of browser_use.py. -/
structure BrowserEnv where
  cwd : String
  file : String
  agentOutcome : AgentOutcome
deriving DecidableEq

/-- Environment of one run of mcp_everything.py (it uses no file path). -/
structure EverythingEnv where
  cwd : String
  agentOutcome : AgentOutcome
deriving DecidableEq

/-- The task string of airbnb_use.py (Python juxtaposes the three adjacent
string literals into one). -/
def airbnb_task : String :=
  "Find me a nice place to stay in Göteborg, Sweden for 2 adults " ++
  "for a week in August 2025. I prefer places with a pool and " ++
  "good reviews. Show me the top 3 options."

/-- The triple-quoted task string of browser_use.py, indentation included. -/
def browser_task : String :=
  "\n        Navigate to https://github.com/mcp-use/mcp-use, give a star to the project and write\n        a summary of the project.\n        "

/-- The triple-quoted task string of mcp_everything.py, indentation included
(the typo "follwing" is in the source). -/
def everything_task : String :=
  "\n        Hello, you are a tester can you please answer the follwing questions:\n        - Which resources do you have access to?\n        - Which prompts do you have access to?\n        - Which tools do you have access to?\n        "

/-- The inline configuration mapping of mcp_everything.py. -/
def everything_server : MCPConfig :=
  ⟨[("everything", ⟨"npx", ["-y", "@modelcontextprotocol/server-everything"]⟩)]⟩

/-- The try-block of run_airbnb_example: await agent.run(...) then print the
result; on an exception the print is not reached and the outcome is raised. -/
def airbnb_try_body (env : AirbnbEnv) : List Event × Outcome :=
  match env.agentOutcome with
  | AgentOutcome.ok r =>
      ([Event.agent_run airbnb_task 30, Event.print_line ("\nResult: " ++ r)],
       Outcome.normal)
  | AgentOutcome.err e =>
      ([Event.agent_run airbnb_task 30], Outcome.raised e)

/-- The finally-block of run_airbnb_example: evaluate the truthiness of
client.sessions and, only when it is non-empty, await close_all_sessions. -/
def airbnb_finally_block (sessions : List String) : List Event :=
  Event.check_sessions (!sessions.isEmpty) ::
    (if !sessions.isEmpty then [Event.close_all_sessions] else [])

/-- Embedding of run_airbnb_example of airbnb_use.py: load_dotenv, build the
client from the config file path joined from dirname(__file__), build the
ChatOllama handle, build the agent, then the try/finally around agent.run. -/
def run_airbnb_example (env : AirbnbEnv) : List Event × Outcome :=
  let setup : List Event :=
    [Event.load_dotenv,
     Event.from_config_file (os_path_join (os_path_dirname env.file) "airbnb_mcp.json"),
     Event.mk_llm "qwen3:30b" "http://localhost:11434" ((-1 : ℚ)/10),
     Event.mk_agent 10 (some true)]
  let res := tryFinallyRun (airbnb_try_body env) (airbnb_finally_block env.sessions)
  (setup ++ res.1, res.2)

/-- Embedding of main of browser_use.py (named browser_main here because the
two Python modules both call their entry point `main`). -/
def browser_main (env : BrowserEnv) : List Event × Outcome :=
  let setup : List Event :=
    [Event.load_dotenv,
     Event.from_config_file (os_path_join (os_path_dirname env.file) "browser_mcp.json"),
     Event.mk_llm "qwen3:30b" "http://localhost:11434" ((-1 : ℚ)/10),
     Event.mk_agent 10 none]
  match env.agentOutcome with
  | AgentOutcome.ok r =>
      (setup ++ [Event.agent_run browser_task 30, Event.print_line ("\nResult: " ++ r)],
       Outcome.normal)
  | AgentOutcome.err e =>
      (setup ++ [Event.agent_run browser_task 30], Outcome.raised e)

/-- Embedding of main of mcp_everything.py. -/
def everything_main (env : EverythingEnv) : List Event × Outcome :=
  let setup : List Event :=
    [Event.load_dotenv,
     Event.mk_client_inline everything_server,
     Event.mk_llm "qwen3:30b" "http://localhost:11434" ((-1 : ℚ)/10),
     Event.mk_agent 30 none]
  match env.agentOutcome with
  | AgentOutcome.ok r =>
      (setup ++ [Event.agent_run everything_task 30, Event.print_line ("\nResult: " ++ r)],
       Outcome.normal)
  | AgentOutcome.err e =>
      (setup ++ [Event.agent_run everything_task 30], Outcome.raised e)

/-- A module-level action: handing an async entry point to asyncio.run. -/
inductive ModuleAction where
  | asyncio_run (entry : String)
deriving DecidableEq

/-- The guarded module level of airbnb_use.py as a function of __name__. -/
def airbnb_module_actions (name : String) : List ModuleAction :=
  if name = "__main__" then [ModuleAction.asyncio_run "run_airbnb_example"] else []

/-- The guarded module level of browser_use.py as a function of __name__. -/
def browser_module_actions (name : String) : List ModuleAction :=
  if name = "__main__" then [ModuleAction.asyncio_run "main"] else []

/-- The guarded module level of mcp_everything.py as a function of __name__. -/
def everything_module_actions (name : String) : List ModuleAction :=
  if name = "__main__" then [ModuleAction.asyncio_run "main"] else []

/-- A sample environment: airbnb run where agent.run succeeds. -/
def sampleAirbnbOk : AirbnbEnv :=
  ⟨"/home", "/repo/examples/airbnb_use.py", AgentOutcome.ok "res", ["airbnb"]⟩

/-- A sample environment: airbnb run with another cwd and another non-empty
sessions collection. -/
def sampleAirbnbOk2 : AirbnbEnv :=
  ⟨"/elsewhere", "/repo/examples/airbnb_use.py", AgentOutcome.ok "res", ["a", "b"]⟩

/-- A sample environment: airbnb run where agent.run raises. -/
def sampleAirbnbErr : AirbnbEnv :=
  ⟨"/home", "/repo/examples/airbnb_use.py", AgentOutcome.err "boom", []⟩

/-- A sample environment: browser run where agent.run succeeds. -/
def sampleBrowserOk : BrowserEnv :=
  ⟨"/home", "/repo/examples/browser_use.py", AgentOutcome.ok "res"⟩

/-- A sample environment: everything run where agent.run succeeds. -/
def sampleEverythingOk : EverythingEnv := ⟨"/home", AgentOutcome.ok "res"⟩

/-- A sample environment: like sampleAirbnbOk but the sessions collection is
empty at teardown time. -/
def sampleAirbnbOkNoSessions : AirbnbEnv :=
  ⟨"/home", "/repo/examples/airbnb_use.py", AgentOutcome.ok "res", []⟩

/-- Helper: every airbnb trace is the setup prefix, then the try-body trace,
then the finally-block trace. -/
theorem airbnb_trace_decomp (env : AirbnbEnv) :
    (run_airbnb_example env).1 =
      ([Event.load_dotenv,
        Event.from_config_file (os_path_join (os_path_dirname env.file) "airbnb_mcp.json"),
        Event.mk_llm "qwen3:30b" "http://localhost:11434" ((-1 : ℚ)/10),
        Event.mk_agent 10 (some true)] ++ (airbnb_try_body env).1)
        ++ airbnb_finally_block env.sessions := by
  simp [run_airbnb_example, tryFinallyRun]

/-- C1: in the Airbnb script, for every outcome of the awaited agent.run call
(normal return or raised exception), the finally block guarding teardown is
reached: every possible trace ends with the teardown block's events, and the
sessions check of that block is always performed. -/
theorem airbnb_teardown_always_runs (env : AirbnbEnv) :
    airbnb_finally_block env.sessions <:+ (run_airbnb_example env).1 ∧
      Event.check_sessions (!env.sessions.isEmpty) ∈ (run_airbnb_example env).1 := by
  constructor
  · rw [airbnb_trace_decomp]
    exact List.suffix_append _ _
  · rw [airbnb_trace_decomp]
    simp [airbnb_finally_block]

/-- C2: in the Airbnb script, close_all_sessions is called if and only if the
client's sessions collection is non-empty at the end of the run. -/
theorem airbnb_close_iff_sessions_nonempty (env : AirbnbEnv) :
    Event.close_all_sessions ∈ (run_airbnb_example env).1 ↔ env.sessions ≠ [] := by
  rcases env with ⟨c, f, o, s⟩
  cases o <;> cases s <;>
    simp [run_airbnb_example, tryFinallyRun, airbnb_try_body, airbnb_finally_block]

/-- C3: in the Airbnb script, if the agent invocation raises an exception,
that same exception propagates out of the entry point unchanged, and the
cleanup block still runs (its trace ends the script's trace). -/
theorem airbnb_exception_propagates (env : AirbnbEnv) (e : String)
    (h : env.agentOutcome = AgentOutcome.err e) :
    (run_airbnb_example env).2 = Outcome.raised e ∧
      airbnb_finally_block env.sessions <:+ (run_airbnb_example env).1 := by
  refine ⟨?_, by rw [airbnb_trace_decomp]; exact List.suffix_append _ _⟩
  rcases env with ⟨c, f, o, s⟩
  cases o with
  | ok r => simp at h
  | err e2 =>
      simp only [AgentOutcome.err.injEq] at h
      subst h
      rfl

/-- Witness for C3 at a concrete environment where agent.run raises "boom". -/
theorem airbnb_exception_propagates_witness :
    (run_airbnb_example sampleAirbnbErr).2 = Outcome.raised "boom" ∧
      airbnb_finally_block sampleAirbnbErr.sessions <:+ (run_airbnb_example sampleAirbnbErr).1 :=
  airbnb_exception_propagates sampleAirbnbErr "boom" rfl

/-- C4: the configuration mapping the everything script passes to the client
constructor has exactly one server entry, named "everything", with command
"npx" and argument list ["-y", "@modelcontextprotocol/server-everything"],
and that exact mapping reaches the constructor on every run. -/
theorem everything_config_exactly_one_server :
    everything_server.mcpServers =
      [("everything", ⟨"npx", ["-y", "@modelcontextprotocol/server-everything"]⟩)] ∧
    everything_server.mcpServers.length = 1 ∧
    ∀ env : EverythingEnv,
      Event.mk_client_inline everything_server ∈ (everything_main env).1 := by
  refine ⟨rfl, rfl, ?_⟩
  rintro ⟨c, o⟩
  cases o <;> simp [everything_main]

/-- C5: for each of the three scripts, asyncio.run on the async entry point
happens at module level exactly when __name__ is "__main__", hence never as
a side effect of importing the module. -/
theorem entry_invoked_only_as_main (name : String) :
    (ModuleAction.asyncio_run "run_airbnb_example" ∈ airbnb_module_actions name
      ↔ name = "__main__") ∧
    (ModuleAction.asyncio_run "main" ∈ browser_module_actions name
      ↔ name = "__main__") ∧
    (ModuleAction.asyncio_run "main" ∈ everything_module_actions name
      ↔ name = "__main__") := by
  refine ⟨?_, ?_, ?_⟩ <;>
    · by_cases h : name = "__main__" <;>
        simp [airbnb_module_actions, browser_module_actions, everything_module_actions, h]

/-- C6: every run of each script that completes normally prints exactly one
line to standard output. -/
theorem one_result_line_per_normal_run :
    (∀ env : AirbnbEnv, (run_airbnb_example env).2 = Outcome.normal →
      (run_airbnb_example env).1.countP isPrintEvent = 1) ∧
    (∀ env : BrowserEnv, (browser_main env).2 = Outcome.normal →
      (browser_main env).1.countP isPrintEvent = 1) ∧
    (∀ env : EverythingEnv, (everything_main env).2 = Outcome.normal →
      (everything_main env).1.countP isPrintEvent = 1) := by
  refine ⟨?_, ?_, ?_⟩
  · rintro ⟨c, f, o, s⟩ h
    cases o with
    | ok r =>
        cases s <;>
          simp [run_airbnb_example, tryFinallyRun, airbnb_try_body,
            airbnb_finally_block, List.countP_cons, isPrintEvent]
    | err e => simp [run_airbnb_example, tryFinallyRun, airbnb_try_body] at h
  · rintro ⟨c, f, o⟩ h
    cases o with
    | ok r => simp [browser_main, List.countP_cons, isPrintEvent]
    | err e => simp [browser_main] at h
  · rintro ⟨c, o⟩ h
    cases o with
    | ok r => simp [everything_main, List.countP_cons, isPrintEvent]
    | err e => simp [everything_main] at h

/-- Witness for C6 at concrete normally-completing environments. -/
theorem one_result_line_per_normal_run_witness :
    (run_airbnb_example sampleAirbnbOk).1.countP isPrintEvent = 1 ∧
    (browser_main sampleBrowserOk).1.countP isPrintEvent = 1 ∧
    (everything_main sampleEverythingOk).1.countP isPrintEvent = 1 :=
  ⟨one_result_line_per_normal_run.1 sampleAirbnbOk rfl,
   one_result_line_per_normal_run.2.1 sampleBrowserOk rfl,
   one_result_line_per_normal_run.2.2 sampleEverythingOk rfl⟩

/-- C7 counterexample: the Airbnb script's body does branch on a runtime
condition besides the main guard: two runs identical in working directory,
file path and agent outcome, differing only in whether the sessions
collection is empty, produce different traces. -/
theorem airbnb_branches_on_sessions :
    sampleAirbnbOkNoSessions.cwd = sampleAirbnbOk.cwd ∧
    sampleAirbnbOkNoSessions.file = sampleAirbnbOk.file ∧
    sampleAirbnbOkNoSessions.agentOutcome = sampleAirbnbOk.agentOutcome ∧
    (run_airbnb_example sampleAirbnbOkNoSessions).1 ≠ (run_airbnb_example sampleAirbnbOk).1 := by
  refine ⟨rfl, rfl, rfl, ?_⟩
  intro hcontra
  have h1 := congrArg List.length hcontra
  simp [run_airbnb_example, tryFinallyRun, airbnb_try_body, airbnb_finally_block,
    sampleAirbnbOkNoSessions, sampleAirbnbOk] at h1

/-- C7 amended: the browser and everything scripts branch on no runtime
condition apart from the agent outcome (and, for the browser script, the
file path); the Airbnb script additionally branches on exactly one runtime
condition, the emptiness of the sessions collection in its cleanup block. -/
theorem scripts_branch_only_on_outcome_and_sessions :
    (∀ (c1 c2 f : String) (o : AgentOutcome) (s1 s2 : List String),
        s1.isEmpty = s2.isEmpty →
        run_airbnb_example ⟨c1, f, o, s1⟩ = run_airbnb_example ⟨c2, f, o, s2⟩) ∧
    (∀ (c1 c2 f : String) (o : AgentOutcome),
        browser_main ⟨c1, f, o⟩ = browser_main ⟨c2, f, o⟩) ∧
    (∀ (c1 c2 : String) (o : AgentOutcome),
        everything_main ⟨c1, o⟩ = everything_main ⟨c2, o⟩) := by
  refine ⟨?_, ?_, ?_⟩
  · intro c1 c2 f o s1 s2 hs
    simp [run_airbnb_example, tryFinallyRun, airbnb_try_body, airbnb_finally_block, hs]
  · intro c1 c2 f o
    rfl
  · intro c1 c2 o
    rfl

/-- Witness for the amended C7 at concrete environments differing in working
directory and session contents but not in sessions-emptiness. -/
theorem scripts_branch_only_witness :
    run_airbnb_example sampleAirbnbOk = run_airbnb_example sampleAirbnbOk2 ∧
    browser_main sampleBrowserOk
      = browser_main ⟨"/elsewhere", "/repo/examples/browser_use.py", AgentOutcome.ok "res"⟩ ∧
    everything_main sampleEverythingOk = everything_main ⟨"/elsewhere", AgentOutcome.ok "res"⟩ :=
  ⟨scripts_branch_only_on_outcome_and_sessions.1 "/home" "/elsewhere"
      "/repo/examples/airbnb_use.py" (AgentOutcome.ok "res") ["airbnb"] ["a", "b"] rfl,
   scripts_branch_only_on_outcome_and_sessions.2.1 "/home" "/elsewhere"
      "/repo/examples/browser_use.py" (AgentOutcome.ok "res"),
   scripts_branch_only_on_outcome_and_sessions.2.2 "/home" "/elsewhere"
      (AgentOutcome.ok "res")⟩

/-- C8: the configuration mapping and the task instruction strings reach the
external client constructor and agent.run calls exactly as the literal
values written in the scripts, on every run. -/
theorem arguments_passed_through_unchanged :
    (∀ env : AirbnbEnv, Event.agent_run airbnb_task 30 ∈ (run_airbnb_example env).1) ∧
    (∀ env : BrowserEnv, Event.agent_run browser_task 30 ∈ (browser_main env).1) ∧
    (∀ env : EverythingEnv,
      Event.mk_client_inline everything_server ∈ (everything_main env).1 ∧
        Event.agent_run everything_task 30 ∈ (everything_main env).1) := by
  refine ⟨?_, ?_, ?_⟩
  · rintro ⟨c, f, o, s⟩
    cases o <;> simp [run_airbnb_example, tryFinallyRun, airbnb_try_body]
  · rintro ⟨c, f, o⟩
    cases o <;> simp [browser_main]
  · rintro ⟨c, o⟩
    cases o <;> simp [everything_main]

/-- C9: in the Airbnb and browser scripts, the configuration file path is
computed from the module's file path alone (joining its dirname with the
config file name), never from the working directory: runs differing only in
working directory are identical, the path event is always derived from the
file field, and on a concrete file path the computation resolves next to the
script. -/
theorem config_path_from_file_not_cwd :
    (∀ (c1 c2 f : String) (o : AgentOutcome) (s : List String),
        run_airbnb_example ⟨c1, f, o, s⟩ = run_airbnb_example ⟨c2, f, o, s⟩) ∧
    (∀ (c1 c2 f : String) (o : AgentOutcome),
        browser_main ⟨c1, f, o⟩ = browser_main ⟨c2, f, o⟩) ∧
    (∀ env : AirbnbEnv,
        Event.from_config_file (os_path_join (os_path_dirname env.file) "airbnb_mcp.json")
          ∈ (run_airbnb_example env).1) ∧
    (∀ env : BrowserEnv,
        Event.from_config_file (os_path_join (os_path_dirname env.file) "browser_mcp.json")
          ∈ (browser_main env).1) ∧
    os_path_join (os_path_dirname "/repo/examples/airbnb_use.py") "airbnb_mcp.json"
      = "/repo/examples/airbnb_mcp.json" := by
  refine ⟨?_, ?_, ?_, ?_, by decide⟩
  · intro c1 c2 f o s
    rfl
  · intro c1 c2 f o
    rfl
  · rintro ⟨c, f, o, s⟩
    cases o <;> simp [run_airbnb_example, tryFinallyRun, airbnb_try_body]
  · rintro ⟨c, f, o⟩
    cases o <;> simp [browser_main]

/-- C10: all three scripts construct the ChatOllama handle with the same
triple of model "qwen3:30b", base URL "http://localhost:11434" and
temperature -0.1 (embedded as the rational -1/10), a negative value. -/
theorem identical_llm_parameters_negative_temperature :
    (∀ env : AirbnbEnv,
        Event.mk_llm "qwen3:30b" "http://localhost:11434" ((-1 : ℚ)/10)
          ∈ (run_airbnb_example env).1) ∧
    (∀ env : BrowserEnv,
        Event.mk_llm "qwen3:30b" "http://localhost:11434" ((-1 : ℚ)/10)
          ∈ (browser_main env).1) ∧
    (∀ env : EverythingEnv,
        Event.mk_llm "qwen3:30b" "http://localhost:11434" ((-1 : ℚ)/10)
          ∈ (everything_main env).1) ∧
    ((-1 : ℚ)/10 < 0) := by
  refine ⟨?_, ?_, ?_, by norm_num⟩
  · rintro ⟨c, f, o, s⟩
    cases o <;> simp [run_airbnb_example, tryFinallyRun, airbnb_try_body]
  · rintro ⟨c, f, o⟩
    cases o <;> simp [browser_main]
  · rintro ⟨c, o⟩
    cases o <;> simp [everything_main]

end McpUse
